import Mathlib

/-!
Verification of the chat-relay backend (`app.py`): a shallow embedding of the
`/api/chat` and `/api/health` Flask handlers, followed by theorems about them.

JSON values, Python truthiness, `dict.get`, `str.strip`, list comprehension
over `uploaded_files`, prompt assembly and the upstream Groq completion call
are all translated directly from `app.py`.  The upstream provider is a
parameter (a function from completion requests to a result), so properties
about "no upstream call" are stated via the call count the handler returns.
-/

namespace LegalChat

/-- JSON values as parsed by `request.get_json()` (Python objects from JSON). -/
inductive Json where
  | null : Json
  | bool : Bool → Json
  | num : Int → Json
  | str : String → Json
  | arr : List Json → Json
  | obj : List (String × Json) → Json

/-- Python truthiness (`if not data:` / `if uploaded_files:` / `if file_names:`). -/
def Json.truthy : Json → Bool
  | .null => false
  | .bool b => b
  | .num n => !(n == 0)
  | .str s => !(s == "")
  | .arr xs => !xs.isEmpty
  | .obj fs => !fs.isEmpty

/-- Field lookup in a JSON object (used to inspect response bodies). -/
def Json.field : Json → String → Option Json
  | .obj fs, k => fs.lookup k
  | _, _ => none

/-- An HTTP response: status code plus JSON body (what `jsonify(...), code` builds). -/
structure Response where
  status : Nat
  body : Json

/-- `jsonify({'error': msg})` -/
def mkError (msg : String) : Json := Json.obj [("error", Json.str msg)]

/-- The `error` field of a response body, as a string (empty if absent). -/
def errorText (r : Response) : String :=
  match r.body.field "error" with
  | some (Json.str s) => s
  | _ => ""

/-- The `response` field of a response body, as a string (empty if absent). -/
def responseText (r : Response) : String :=
  match r.body.field "response" with
  | some (Json.str s) => s
  | _ => ""

/-- The `model_used` field of a response body. -/
def modelUsedText (r : Response) : Option String :=
  match r.body.field "model_used" with
  | some (Json.str s) => some s
  | _ => none

/-- One message of the upstream chat-completion request. -/
structure CompletionMessage where
  role : String
  content : String

/-- The upstream chat-completion request (`groq_client.chat.completions.create(...)`). -/
structure CompletionRequest where
  messages : List CompletionMessage
  model : String
  temperature : ℚ
  maxTokens : Nat

/-- One completion choice of the upstream reply. -/
structure Choice where
  message : CompletionMessage

/-- The upstream reply (`chat_completion`). -/
structure Completion where
  choices : List Choice

/-- The upstream provider: one completion call, which either raises (error
string) or returns a completion.  Models `groq_client.chat.completions.create`. -/
def Provider : Type := CompletionRequest → Except String Completion

/-- Whitespace stripped by Python `str.strip()` (restricted to the ASCII
whitespace characters; the claims only involve these). -/
def pyIsSpace (c : Char) : Bool :=
  c == ' ' || c == '\t' || c == '\n' || c == '\r' || c == Char.ofNat 11 || c == Char.ofNat 12

/-- Python `s.strip()`: remove leading and trailing whitespace. -/
def pyStrip (s : String) : String :=
  String.mk (((s.data.dropWhile pyIsSpace).reverse.dropWhile pyIsSpace).reverse)

/-- Python `d.get(k, default)`: raises AttributeError unless `d` is a dict. -/
def pyDictGet (d : Json) (k : String) (default : Json) : Except String Json :=
  match d with
  | Json.obj fs =>
      Except.ok (match fs.lookup k with
                 | some v => v
                 | none => default)
  | Json.str _ => Except.error "str object has no attribute get"
  | Json.arr _ => Except.error "list object has no attribute get"
  | Json.num _ => Except.error "int object has no attribute get"
  | Json.bool _ => Except.error "bool object has no attribute get"
  | Json.null => Except.error "NoneType object has no attribute get"

/-- Python `v.strip()`: raises AttributeError unless `v` is a string. -/
def pyStripAttr : Json → Except String String
  | Json.str s => Except.ok (pyStrip s)
  | _ => Except.error "object has no attribute strip"

/-- Python `len(v)`: defined for strings, lists and dicts, raises otherwise.
Models the `user_id[:8] if len(user_id) > 8 else user_id` logging expression,
whose only observable effect is the exception for unsized values. -/
def pyLen : Json → Except String Nat
  | Json.str s => Except.ok s.length
  | Json.arr xs => Except.ok xs.length
  | Json.obj fs => Except.ok fs.length
  | _ => Except.error "object has no len"

/-- Python iteration `for f in uploaded_files`: lists yield elements, dicts
yield their keys, strings yield their characters; other values raise. -/
def pyIter : Json → Except String (List Json)
  | Json.arr xs => Except.ok xs
  | Json.obj fs => Except.ok (fs.map fun p => Json.str p.1)
  | Json.str s => Except.ok (s.data.map fun c => Json.str (String.mk [c]))
  | _ => Except.error "object is not iterable"

/-- Substring test on strings (used for Python `key in someString`). -/
def strContainsB (hay needle : String) : Bool :=
  decide (List.IsInfix needle.data hay.data)

/-- Python `'name' in f`: key membership for dicts, element equality for lists
(a JSON value equals the string key only if it is that string), substring test
for strings; other values raise TypeError. -/
def pyContainsKey (k : String) : Json → Except String Bool
  | Json.obj fs => Except.ok (fs.lookup k).isSome
  | Json.arr xs =>
      Except.ok (xs.any fun x =>
        match x with
        | Json.str s => s == k
        | _ => false)
  | Json.str s => Except.ok (strContainsB s k)
  | _ => Except.error "argument is not a container"

/-- Python `f[k]` for a string key: dict lookup; lists and strings raise
TypeError on a string index; other values are not subscriptable. -/
def pyIndexStr (f : Json) (k : String) : Except String Json :=
  match f with
  | Json.obj fs =>
      match fs.lookup k with
      | some v => Except.ok v
      | none => Except.error "KeyError"
  | _ => Except.error "indices must be integers"

/-- `[f['name'] for f in uploaded_files if 'name' in f]` (app.py line 108),
evaluated left to right, propagating the first exception. -/
def fileNames : List Json → Except String (List Json)
  | [] => Except.ok []
  | f :: rest =>
    match pyContainsKey "name" f with
    | Except.error e => Except.error e
    | Except.ok true =>
      match pyIndexStr f "name" with
      | Except.error e => Except.error e
      | Except.ok v =>
        match fileNames rest with
        | Except.error e => Except.error e
        | Except.ok vs => Except.ok (v :: vs)
    | Except.ok false => fileNames rest

/-- The elements of a Python list, all required to be strings (as `str.join`
demands); raises TypeError at the first non-string. -/
def asStrings : List Json → Except String (List String)
  | [] => Except.ok []
  | Json.str s :: rest =>
    match asStrings rest with
    | Except.error e => Except.error e
    | Except.ok ss => Except.ok (s :: ss)
  | _ :: _ => Except.error "sequence item is not a str instance"

/-- Python `sep.join(xs)`. -/
def pyJoinStrs (sep : String) (xs : List Json) : Except String String :=
  match asStrings xs with
  | Except.error e => Except.error e
  | Except.ok ss => Except.ok (String.intercalate sep ss)

/-- The fixed prefix of `contextual_prompt` (app.py lines 103-105), up to and
including "User's question: "; the user message text is appended to it. -/
def promptPreamble : String :=
  "You are a Legal AI Assistant. Provide helpful, accurate legal information while always emphasizing that your responses are for informational purposes only and not legal advice.\n\nUser\x27s question: "

/-- The fixed system message (app.py lines 117-127). -/
def systemPrompt : String :=
  "You are a helpful Legal AI Assistant. Provide informative responses about legal matters while always clarifying that this is general information only, not legal advice. \n\nIMPORTANT FORMATTING RULES:\n- Start with a brief introduction paragraph\n- Use clear section headings followed by a colon (:)\n- Under each section, use bullet points (•) for key information\n- Use numbered lists (1., 2., 3.) for step-by-step processes or categories\n- Keep bullet points concise and focused\n- Always end with a disclaimer paragraph\n\nAlways recommend consulting with a qualified attorney for specific legal situations."

/-- Prompt assembly (app.py lines 103-110): fixed preamble plus the (already
stripped) message, then, when `uploaded_files` is truthy and some entry has a
`name` key, the file-name note comma-joined in input order. -/
def buildPrompt (message : String) (uploadedFiles : Json) : Except String String :=
  if uploadedFiles.truthy = true then
    match pyIter uploadedFiles with
    | Except.error e => Except.error e
    | Except.ok items =>
      match fileNames items with
      | Except.error e => Except.error e
      | Except.ok names =>
        if names.isEmpty = true then Except.ok (promptPreamble ++ message)
        else
          match pyJoinStrs ", " names with
          | Except.error e => Except.error e
          | Except.ok joined =>
              Except.ok (promptPreamble ++ message ++
                "\n\nNote: The user has uploaded: " ++ joined ++ ".")
  else Except.ok (promptPreamble ++ message)

/-- Validation and prompt assembly (app.py lines 94-110), after the truthiness
check on the parsed body.  `Except.error e` is a raised exception, `Except.ok
none` the early `400 Message is required` return, `Except.ok (some prompt)`
the prompt to send upstream. -/
def prepare (data : Json) : Except String (Option String) :=
  match pyDictGet data "message" (Json.str "") with
  | Except.error e => Except.error e
  | Except.ok mv =>
    match pyStripAttr mv with
    | Except.error e => Except.error e
    | Except.ok message =>
      match pyDictGet data "uploaded_files" (Json.arr []) with
      | Except.error e => Except.error e
      | Except.ok uf =>
        match pyDictGet data "user_id" (Json.str "anonymous") with
        | Except.error e => Except.error e
        | Except.ok uid =>
          if message = "" then Except.ok none
          else
            match pyLen uid with
            | Except.error e => Except.error e
            | Except.ok _ =>
              match buildPrompt message uf with
              | Except.error e => Except.error e
              | Except.ok prompt => Except.ok (some prompt)

/-- The fixed completion request (app.py lines 113-137): system message, user
message equal to the assembled prompt, model `llama3-8b-8192`, temperature
`0.7`, `max_tokens` 1000. -/
def mkCompletionRequest (prompt : String) : CompletionRequest :=
  { messages := [{ role := "system", content := systemPrompt },
                 { role := "user", content := prompt }],
    model := "llama3-8b-8192",
    temperature := 7 / 10,
    maxTokens := 1000 }

/-- The upstream call and success response (app.py lines 113-145):
`chat_completion.choices[0].message.content` raises IndexError on an empty
choice list; on success, 200 with the response text and the fixed model id. -/
def callUpstream (client : Provider) (prompt : String) : Except String Response :=
  match client (mkCompletionRequest prompt) with
  | Except.error e => Except.error e
  | Except.ok comp =>
    match comp.choices.head? with
    | none => Except.error "list index out of range"
    | some c =>
      Except.ok { status := 200,
                  body := Json.obj [("response", Json.str c.message.content),
                                    ("model_used", Json.str "llama3-8b-8192")] }

/-- The `except Exception` handler (app.py lines 147-151). -/
def errorResponse (e : String) : Response :=
  { status := 500, body := mkError ("An error occurred while processing your request: " ++ e) }

/-- The body of the /api/chat `try` block once the provider handle is known
present (app.py lines 90-151): parse-result truthiness check, validation,
prompt assembly, upstream call, and the `except` mapping to 500. -/
def chatBody (client : Provider) (reqBody : Option Json) : Response × Nat :=
  if (reqBody.getD Json.null).truthy = false then
    ({ status := 400, body := mkError "Invalid JSON data" }, 0)
  else
    match prepare (reqBody.getD Json.null) with
    | Except.error e => (errorResponse e, 0)
    | Except.ok none => ({ status := 400, body := mkError "Message is required" }, 0)
    | Except.ok (some prompt) =>
      match callUpstream client prompt with
      | Except.error e => (errorResponse e, 1)
      | Except.ok resp => (resp, 1)

/-- The `POST /api/chat` handler (app.py lines 83-151).  `groqClient` is the
process-wide provider handle (`groq_client`); `reqBody` is the result of
`request.get_json()`.  Modelled from the spec: Flask `request.get_json` (not
part of this repository) is modelled as producing `none` for a missing or
malformed JSON body and `some j` for a parsed body, matching the handler code
that treats a falsy parse result as invalid JSON.  The second component of the
result counts upstream completion calls made while handling the request. -/
def chat (groqClient : Option Provider) (reqBody : Option Json) : Response × Nat :=
  match groqClient with
  | none =>
      ({ status := 503, body := mkError "AI service unavailable - Groq client not initialized" }, 0)
  | some client => chatBody client reqBody

/-- The `GET /api/health` handler (app.py lines 73-81): `jsonify` with no
explicit status code, hence HTTP 200 always. -/
def health (groqClient : Option Provider) (env port : String) (apiKeySet : Bool) : Response :=
  { status := 200,
    body := Json.obj
      [("status", Json.str (if groqClient.isSome then "healthy" else "degraded")),
       ("groq_client", Json.bool groqClient.isSome),
       ("environment", Json.str env),
       ("port", Json.str port),
       ("groq_api_key_set", Json.bool apiKeySet)] }

/-- The `status` field of the health body. -/
def statusText (r : Response) : Option String :=
  match r.body.field "status" with
  | some (Json.str s) => some s
  | _ => none

/-- A test-double provider that echoes the content of the last (user) message
it receives as its single completion choice. -/
def userContent (req : CompletionRequest) : String :=
  match req.messages.getLast? with
  | some m => m.content
  | none => ""

/-- The echoing provider double used by the round-trip properties. -/
def echoProvider : Provider := fun req =>
  Except.ok { choices := [{ message := { role := "assistant", content := userContent req } }] }

/-- The `message` field of a parsed body is missing, or is a string that is
empty after stripping. -/
def emptyMessageField (fs : List (String × Json)) : Bool :=
  match fs.lookup "message" with
  | none => true
  | some (Json.str s) => pyStrip s == ""
  | some _ => false

/-- The value is not a Python string. -/
def notStringB : Json → Bool
  | Json.str _ => false
  | _ => true

/-- Concatenation of strings concatenates their character lists. -/
theorem string_data_append (a b : String) : (a ++ b).data = a.data ++ b.data := by
  cases a
  cases b
  rfl

/-- A nonempty association list is truthy as a JSON object. -/
theorem obj_truthy_of_ne_nil (fs : List (String × Json)) (h : fs ≠ []) :
    (Json.obj fs).truthy = true := by
  cases fs with
  | nil => exact absurd rfl h
  | cons a l => rfl

/-- C1: while the process-wide provider handle is absent, every POST /api/chat
request is answered with status 503 and no upstream completion call is made,
regardless of the request body. -/
theorem chat_no_client_503_no_upstream (reqBody : Option Json) :
    (chat none reqBody).1.status = 503 ∧ (chat none reqBody).2 = 0 :=
  ⟨rfl, rfl⟩

/-- C7: a missing or malformed JSON body (the parse produced no data) yields
status 400 with body error "Invalid JSON data" and no upstream call. -/
theorem chat_missing_body_400 (client : Provider) :
    chat (some client) none =
      ({ status := 400, body := mkError "Invalid JSON data" }, 0) := rfl

/-- C8 (amended): when the provider handle is absent, the 503 error field of
POST /api/chat equals "AI service unavailable - Groq client not initialized"
(it begins with "AI service unavailable" but carries a suffix). -/
theorem chat_unavailable_error_text (reqBody : Option Json) :
    (chat none reqBody).1.status = 503 ∧
    errorText (chat none reqBody).1 =
      "AI service unavailable - Groq client not initialized" :=
  ⟨rfl, rfl⟩

/-- C8 counterexample: with the handle absent, the 503 error field is not
exactly the string "AI service unavailable". -/
theorem chat_unavailable_error_not_exact :
    (chat none (some (Json.obj [("message", Json.str "hi")]))).1.status = 503 ∧
    errorText (chat none (some (Json.obj [("message", Json.str "hi")]))).1 ≠
      "AI service unavailable" :=
  ⟨rfl, by decide⟩

/-- C3 (amended): GET /api/health always answers HTTP 200; its status string
is "healthy" exactly when the provider handle is present and "degraded"
otherwise — a deterministic function of handle presence alone. -/
theorem health_status_by_presence (gc : Option Provider) (env port : String) (k : Bool) :
    (health gc env port k).status = 200 ∧
    statusText (health gc env port k) =
      some (if gc.isSome then "healthy" else "degraded") := by
  cases gc with
  | none => exact ⟨rfl, rfl⟩
  | some c => exact ⟨rfl, rfl⟩

/-- C3 counterexample: with the provider handle absent, GET /api/health still
answers HTTP 200 (with status string "degraded"), not 503. -/
theorem health_degraded_status_200 :
    (health none "development" "8000" false).status = 200 ∧
    (health none "development" "8000" false).status ≠ 503 ∧
    statusText (health none "development" "8000" false) = some "degraded" :=
  ⟨rfl, by decide, rfl⟩

/-- C10: a body that parses to a falsy value (such as the empty JSON object)
is answered 400 with error "Invalid JSON data", not "Message is required",
and no upstream call is made. -/
theorem chat_falsy_body_400 (client : Provider) (j : Json) (h : j.truthy = false) :
    chat (some client) (some j) =
      ({ status := 400, body := mkError "Invalid JSON data" }, 0) ∧
    errorText (chat (some client) (some j)).1 ≠ "Message is required" := by
  have hc : chat (some client) (some j) =
      ({ status := 400, body := mkError "Invalid JSON data" }, 0) := by
    simp [chat, chatBody, h]
  refine ⟨hc, ?_⟩
  rw [hc]
  decide

/-- Witness for C10 at the empty JSON object. -/
theorem chat_falsy_body_400_witness :
    (Json.obj []).truthy = false ∧
    (chat (some echoProvider) (some (Json.obj [])) =
       ({ status := 400, body := mkError "Invalid JSON data" }, 0) ∧
     errorText (chat (some echoProvider) (some (Json.obj []))).1 ≠ "Message is required") :=
  ⟨rfl, chat_falsy_body_400 echoProvider (Json.obj []) rfl⟩

/-- C2 counterexample: the empty JSON object is a body whose `message` field
is missing, yet the 400 response body is "Invalid JSON data", not
"Message is required". -/
theorem chat_empty_object_not_message_required :
    (chat (some echoProvider) (some (Json.obj []))).1.status = 400 ∧
    errorText (chat (some echoProvider) (some (Json.obj []))).1 = "Invalid JSON data" ∧
    errorText (chat (some echoProvider) (some (Json.obj []))).1 ≠ "Message is required" :=
  ⟨rfl, rfl, by decide⟩

/-- A body whose `message` field is missing or trims to empty makes `prepare`
take the early `Message is required` return. -/
theorem prepare_empty_message (fs : List (String × Json)) (hm : emptyMessageField fs = true) :
    prepare (Json.obj fs) = Except.ok none := by
  unfold emptyMessageField at hm
  unfold prepare
  have hget : pyDictGet (Json.obj fs) "message" (Json.str "") =
      Except.ok (match fs.lookup "message" with
                 | some v => v
                 | none => Json.str "") := rfl
  rw [hget]
  cases hml : fs.lookup "message" with
  | none =>
      have h0 : pyStrip "" = "" := rfl
      simp [pyStripAttr, h0, pyDictGet]
  | some v =>
      rw [hml] at hm
      cases v with
      | str s =>
          have hs : pyStrip s = "" := by simpa using hm
          simp [pyStripAttr, hs, pyDictGet]
      | null => simp at hm
      | bool b => simp at hm
      | num n => simp at hm
      | arr xs => simp at hm
      | obj ofs => simp at hm

/-- C2 (amended): for every body that parses to a nonempty (truthy) JSON
object whose `message` field, after trimming, is empty (missing, empty, or a
whitespace-only string), the response is 400 with body error
"Message is required" and no upstream completion call is made. -/
theorem chat_truthy_empty_message_400 (client : Provider) (fs : List (String × Json))
    (hne : fs ≠ []) (hm : emptyMessageField fs = true) :
    chat (some client) (some (Json.obj fs)) =
      ({ status := 400, body := mkError "Message is required" }, 0) := by
  simp [chat, chatBody, obj_truthy_of_ne_nil fs hne, prepare_empty_message fs hm]

/-- Witness for C2 (amended) at the whitespace-only message "   ". -/
theorem chat_truthy_empty_message_400_witness :
    ([("message", Json.str "   ")] ≠ ([] : List (String × Json))) ∧
    emptyMessageField [("message", Json.str "   ")] = true ∧
    chat (some echoProvider) (some (Json.obj [("message", Json.str "   ")])) =
      ({ status := 400, body := mkError "Message is required" }, 0) :=
  ⟨List.cons_ne_nil _ _, rfl,
   chat_truthy_empty_message_400 echoProvider _ (List.cons_ne_nil _ _) rfl⟩

/-- A present non-string `message` value makes `prepare` raise (the modelled
AttributeError of `.strip()` on a non-string). -/
theorem prepare_nonstring_message (fs : List (String × Json)) (v : Json)
    (hv : fs.lookup "message" = some v) (hns : notStringB v = true) :
    prepare (Json.obj fs) = Except.error "object has no attribute strip" := by
  unfold prepare
  have hget : pyDictGet (Json.obj fs) "message" (Json.str "") =
      Except.ok (match fs.lookup "message" with
                 | some v => v
                 | none => Json.str "") := rfl
  rw [hget, hv]
  cases v with
  | str s => exact absurd hns (by simp [notStringB])
  | null => rfl
  | bool b => rfl
  | num n => rfl
  | arr xs => rfl
  | obj ofs => rfl

/-- C9: a body whose `message` field is present but not a string is answered
with the generic 500 catch-all (the modelled `.strip()` AttributeError), not a
400 validation error, and no upstream call is made. -/
theorem chat_nonstring_message_500 (client : Provider) (fs : List (String × Json)) (v : Json)
    (hv : fs.lookup "message" = some v) (hns : notStringB v = true) :
    (chat (some client) (some (Json.obj fs))).1.status = 500 ∧
    (chat (some client) (some (Json.obj fs))).2 = 0 := by
  have hne : fs ≠ [] := by
    intro h
    rw [h] at hv
    simp at hv
  have hc : chat (some client) (some (Json.obj fs)) =
      (errorResponse "object has no attribute strip", 0) := by
    simp [chat, chatBody, obj_truthy_of_ne_nil fs hne,
          prepare_nonstring_message fs v hv hns]
  rw [hc]
  exact ⟨rfl, rfl⟩

/-- Witness for C9 at the numeric message 5. -/
theorem chat_nonstring_message_500_witness :
    ([("message", Json.num 5)].lookup "message" = some (Json.num 5)) ∧
    notStringB (Json.num 5) = true ∧
    ((chat (some echoProvider) (some (Json.obj [("message", Json.num 5)]))).1.status = 500 ∧
     (chat (some echoProvider) (some (Json.obj [("message", Json.num 5)]))).2 = 0) :=
  ⟨rfl, rfl, chat_nonstring_message_500 echoProvider _ _ rfl rfl⟩

/-- C6: every 200 response of POST /api/chat carries model_used
"llama3-8b-8192", and its response text equals the message content of the
first completion choice returned by the upstream call the handler made. -/
theorem chat_success_model_and_text (client : Provider) (reqBody : Option Json)
    (h : (chat (some client) reqBody).1.status = 200) :
    modelUsedText (chat (some client) reqBody).1 = some "llama3-8b-8192" ∧
    ∃ prompt comp choice,
      client (mkCompletionRequest prompt) = Except.ok comp ∧
      comp.choices.head? = some choice ∧
      responseText (chat (some client) reqBody).1 = choice.message.content := by
  have hcb : chat (some client) reqBody = chatBody client reqBody := rfl
  rw [hcb] at h ⊢
  unfold chatBody at h ⊢
  split at h
  · simp at h
  next hcond =>
    rw [if_neg hcond]
    split at h
    next x e heq =>
      simp [errorResponse] at h
    next x heq =>
      simp at h
    next x prompt heq =>
      split at h
      next y e heq2 =>
        simp [errorResponse] at h
      next y resp heq2 =>
        unfold callUpstream at heq2
        split at heq2
        next z e hcall => exact absurd heq2 (by simp)
        next z comp hcall =>
          split at heq2
          next w hhead => exact absurd heq2 (by simp)
          next w c hhead =>
            injection heq2 with h3
            subst h3
            exact ⟨rfl, prompt, comp, c, hcall, hhead, rfl⟩

/-- Witness for C6: the echo provider double on the message "hello". -/
theorem chat_success_model_and_text_witness :
    (chat (some echoProvider) (some (Json.obj [("message", Json.str "hello")]))).1.status = 200 ∧
    (modelUsedText (chat (some echoProvider)
        (some (Json.obj [("message", Json.str "hello")]))).1 = some "llama3-8b-8192" ∧
     ∃ prompt comp choice,
       echoProvider (mkCompletionRequest prompt) = Except.ok comp ∧
       comp.choices.head? = some choice ∧
       responseText (chat (some echoProvider)
           (some (Json.obj [("message", Json.str "hello")]))).1 = choice.message.content) :=
  ⟨rfl, chat_success_model_and_text echoProvider (some (Json.obj [("message", Json.str "hello")])) rfl⟩

/-- C4: `uploaded_files` entries lacking a `name` key are excluded from the
prompt note without failure, the remaining names keep their input order, and
on the example body the note lists "a.pdf, b.pdf" — also end to end through
the handler with the echoing provider double. -/
theorem fileNames_drop_unnamed_keep_order :
    (∀ fs : List (List (String × Json)),
        fileNames (fs.map Json.obj) =
          Except.ok (fs.filterMap fun f => f.lookup "name")) ∧
    buildPrompt "What is a tort?"
        (Json.arr [Json.obj [("name", Json.str "a.pdf")], Json.obj [],
                   Json.obj [("name", Json.str "b.pdf")]]) =
      Except.ok (promptPreamble ++ "What is a tort?" ++
        "\n\nNote: The user has uploaded: " ++ "a.pdf, b.pdf" ++ ".") ∧
    responseText (chat (some echoProvider) (some (Json.obj
        [("message", Json.str "What is a tort?"),
         ("uploaded_files",
          Json.arr [Json.obj [("name", Json.str "a.pdf")], Json.obj [],
                    Json.obj [("name", Json.str "b.pdf")]])]))).1 =
      promptPreamble ++ "What is a tort?" ++
        "\n\nNote: The user has uploaded: " ++ "a.pdf, b.pdf" ++ "." := by
  refine ⟨?_, rfl, rfl⟩
  intro fs
  induction fs with
  | nil => rfl
  | cons f rest ih =>
    simp only [List.map_cons, List.filterMap_cons]
    cases hl : f.lookup "name" with
    | none =>
        unfold fileNames
        simp [pyContainsKey, hl, ih]
    | some v =>
        unfold fileNames
        simp [pyContainsKey, pyIndexStr, hl, ih]

/-- The assembled prompt always contains the message passed to `buildPrompt`
as a substring of its character list. -/
theorem buildPrompt_contains_message (m : String) (uf : Json) (p : String)
    (h : buildPrompt m uf = Except.ok p) : List.IsInfix m.data p.data := by
  unfold buildPrompt at h
  split at h
  · split at h
    next x e heq => exact absurd h (by simp)
    next x items heq =>
      split at h
      next y e heq2 => exact absurd h (by simp)
      next y names heq2 =>
        split at h
        · injection h with h1
          subst h1
          exact ⟨promptPreamble.data, [], by simp [string_data_append]⟩
        · split at h
          next z e heq3 => exact absurd h (by simp)
          next z joined heq3 =>
            injection h with h1
            subst h1
            refine ⟨promptPreamble.data,
              ("\n\nNote: The user has uploaded: ").data ++ joined.data ++ (".").data, ?_⟩
            simp [string_data_append, List.append_assoc]
  · injection h with h1
    subst h1
    exact ⟨promptPreamble.data, [], by simp [string_data_append]⟩

/-- A successful `prepare` on an object body whose `message` field is the
string `m` ran `buildPrompt` on the stripped message and returned its
prompt unchanged. -/
theorem prepare_ok_buildPrompt (fs : List (String × Json)) (m : String) (prompt : String)
    (hv : fs.lookup "message" = some (Json.str m))
    (hp : prepare (Json.obj fs) = Except.ok (some prompt)) :
    ∃ uf, buildPrompt (pyStrip m) uf = Except.ok prompt := by
  unfold prepare at hp
  have hget : pyDictGet (Json.obj fs) "message" (Json.str "") =
      Except.ok (match fs.lookup "message" with
                 | some v => v
                 | none => Json.str "") := rfl
  rw [hget, hv] at hp
  simp only [pyStripAttr, pyDictGet] at hp
  split at hp
  · simp at hp
  · split at hp
    next x e heq => simp at hp
    next x u heq =>
      split at hp
      next y e heq2 => simp at hp
      next y q heq2 =>
        injection hp with h1
        injection h1 with h2
        subst h2
        exact ⟨_, heq2⟩

/-- C5 (amended): with the echoing provider double, for every request body
that is a JSON object whose `message` field is the string `m`, a successful
(200) response's text contains the trimmed message `pyStrip m` as a substring
(prompt assembly is additive on the stripped message; the handler strips the
original before assembling the prompt). -/
theorem chat_echo_contains_trimmed_message (fs : List (String × Json)) (m : String)
    (hv : fs.lookup "message" = some (Json.str m))
    (h : (chat (some echoProvider) (some (Json.obj fs))).1.status = 200) :
    List.IsInfix ((pyStrip m).data)
      ((responseText (chat (some echoProvider) (some (Json.obj fs))).1).data) := by
  have hcb : chat (some echoProvider) (some (Json.obj fs)) =
      chatBody echoProvider (some (Json.obj fs)) := rfl
  rw [hcb] at h ⊢
  unfold chatBody at h ⊢
  split at h
  · simp at h
  next hcond =>
    rw [if_neg hcond]
    split at h
    next x e heq => simp [errorResponse] at h
    next x heq => simp at h
    next x prompt heq =>
      split at h
      next y e heq2 => simp [errorResponse] at h
      next y resp heq2 =>
        have hcu : callUpstream echoProvider prompt =
            Except.ok { status := 200,
                        body := Json.obj [("response", Json.str prompt),
                                          ("model_used", Json.str "llama3-8b-8192")] } := rfl
        rw [hcu] at heq2
        injection heq2 with h3
        subst h3
        show List.IsInfix ((pyStrip m).data) (prompt.data)
        obtain ⟨uf, hbp⟩ := prepare_ok_buildPrompt fs m prompt hv heq
        exact buildPrompt_contains_message (pyStrip m) uf prompt hbp

/-- Witness for C5 (amended) at the message "hello". -/
theorem chat_echo_contains_trimmed_message_witness :
    ([("message", Json.str "hello")].lookup "message" = some (Json.str "hello")) ∧
    (chat (some echoProvider) (some (Json.obj [("message", Json.str "hello")]))).1.status = 200 ∧
    List.IsInfix ((pyStrip "hello").data)
      ((responseText (chat (some echoProvider)
          (some (Json.obj [("message", Json.str "hello")]))).1).data) :=
  ⟨rfl, rfl, chat_echo_contains_trimmed_message [("message", Json.str "hello")] "hello" rfl rfl⟩

set_option maxRecDepth 4000 in
/-- C5 counterexample: for the message "hi " (with a trailing blank) the
request succeeds (200) with the echoing provider double, yet the response
text does not contain the literal original message as a substring — only its
stripped form survives prompt assembly. -/
theorem chat_echo_not_original_substring :
    (chat (some echoProvider) (some (Json.obj [("message", Json.str "hi ")]))).1.status = 200 ∧
    ¬ List.IsInfix (("hi ").data)
        ((responseText (chat (some echoProvider)
            (some (Json.obj [("message", Json.str "hi ")]))).1).data) :=
  ⟨rfl, by decide⟩

end LegalChat
